import Mathlib

/-!
Verification of the libsmbios Windows memory backend fragment
(`src/libsmbios_c/memory/memory_windows.c`) and of the physical-memory
accessor contract described by the specification.

The only code in the excerpt is the stub initializer `init_mem_struct`,
which prints a fixed message and returns `-1`.  It is embedded below as a
pure function from the (possibly NULL) object pointer to a record of its
observable effects.  The handle operations `open` / `read` / `close` do not
appear in the excerpt; they are modelled from the specification text and
clearly marked as such.
-/

/-- Lifecycle state of a memory-access handle, from the specification state
machine `Unopened -> Open -> Closed`. -/
inductive HandleState where
  | Unopened : HandleState
  | Open : HandleState
  | Closed : HandleState
deriving DecidableEq, Repr

/-- Modelled from the spec: `struct memory_access_obj` is declared in
`memory_impl.h`, which is not part of the excerpt.  The data model section
of the specification (MemoryAccessHandle) gives it an open/closed state and
an implementation-defined underlying OS resource identifier. -/
structure memory_access_obj where
  state : HandleState
  osResource : Option Nat
deriving DecidableEq, Repr

/-- Observable result of one call to the stub initializer: the text written
to stdout, the C return value, and the object after the call.  The argument
and result object are wrapped in `Option`: `none` models a NULL
`memory_access_obj` pointer. -/
structure StubResult where
  output : String
  ret : Int
  obj : Option memory_access_obj
deriving DecidableEq, Repr

/-- Shallow embedding of `init_mem_struct` from
`src/libsmbios_c/memory/memory_windows.c` lines 35-39: the body is exactly
a `printf` of a fixed string followed by `return -1`; the parameter `m` is
never dereferenced, so the object passes through unchanged and a NULL
argument is harmless. -/
def init_mem_struct (m : Option memory_access_obj) : StubResult :=
  { output := "WINDOWS NOT IMPLEMENTED YET!!!! \n", ret := -1, obj := m }

/-- Repeated invocation of the stub initializer: `stubOpenTrace n m` is the
result of the `(n+1)`-th call in a sequence of calls each of which passes on
the object left by the previous call. -/
def stubOpenTrace : Nat → Option memory_access_obj → StubResult
  | 0, m => init_mem_struct m
  | n + 1, m => stubOpenTrace n (init_mem_struct m).obj

/-- Error kinds of the physical-memory accessor, from the error handling
section of the specification. -/
inductive MemErr where
  | Unsupported : MemErr
  | PermissionDenied : MemErr
  | IOError : MemErr
  | OutOfRange : MemErr
  | NotOpen : MemErr
deriving DecidableEq, Repr

/-- Modelled from the spec: a platform backend.  The excerpt contains no
working backend, so the platform is abstracted as a supported/unsupported
flag together with the map from physical addresses to bytes and the
predicate saying which addresses lie in an accessible window. -/
structure Platform where
  supported : Bool
  mem : Nat → Nat
  accessible : Nat → Bool

/-- Modelled from the spec: the open operation.  On a platform lacking a
working backend it unconditionally fails with `Unsupported` and leaves the
handle untouched; on a supported platform it moves an `Unopened` handle to
`Open` and acquires an OS resource.  A `Closed` handle is terminal, so
opening it fails without changing it. -/
def openMem (p : Platform) (h : memory_access_obj) :
    memory_access_obj × Option MemErr :=
  if p.supported then
    match h.state with
    | HandleState.Unopened =>
        ({ h with state := HandleState.Open, osResource := some 0 }, none)
    | HandleState.Open => (h, none)
    | HandleState.Closed => (h, some MemErr.NotOpen)
  else
    (h, some MemErr.Unsupported)

/-- Modelled from the spec: `read(handle, physical_address, length)` returns
the byte sequence of exactly `length` bytes starting at `physical_address`
when every address of the range is accessible, fails with `OutOfRange` when
some address is not, and fails with `NotOpen` on a handle that is not in the
`Open` state. -/
def readMem (p : Platform) (h : memory_access_obj) (addr len : Nat) :
    Except MemErr (List Nat) :=
  if h.state = HandleState.Open then
    if (List.range len).all (fun i => p.accessible (addr + i)) then
      Except.ok ((List.range len).map (fun i => p.mem (addr + i)))
    else
      Except.error MemErr.OutOfRange
  else
    Except.error MemErr.NotOpen

/-- Modelled from the spec: `close(handle)` releases the OS resource of an
`Open` handle and is an error-free no-op on a handle that is already closed
or was never opened. -/
def closeMem (h : memory_access_obj) : memory_access_obj × Option MemErr :=
  match h.state with
  | HandleState.Open =>
      ({ state := HandleState.Closed, osResource := none }, none)
  | HandleState.Closed => (h, none)
  | HandleState.Unopened => (h, none)

/-- A concrete supported platform used by the witness theorems: the first
sixteen physical addresses are accessible and address `a` holds byte
`a % 256`. -/
def demoPlat : Platform :=
  { supported := true
    mem := fun a => a % 256
    accessible := fun a => decide (a < 16) }

/-- C1: for every input object, the stub backend open operation
`init_mem_struct` returns the nonzero failure code `-1` and never returns
the success code `0`. -/
theorem init_mem_struct_always_fails (m : Option memory_access_obj) :
    (init_mem_struct m).ret = -1 ∧ (init_mem_struct m).ret ≠ 0 := by
  refine ⟨rfl, ?_⟩
  simp [init_mem_struct]

/-- C2: for every input, the stub initializer prints exactly the fixed
not-implemented message and returns the error code `-1`, and does nothing
else: the object is passed through unchanged. -/
theorem init_mem_struct_stub_behavior (m : Option memory_access_obj) :
    init_mem_struct m =
      { output := "WINDOWS NOT IMPLEMENTED YET!!!! \n", ret := -1, obj := m } :=
  rfl

/-- C3: the failed `init_mem_struct` call has no partial side effects: the
caller-visible object is unchanged, no handle reaches the `Open` state, no
OS resource is newly recorded, and the return code signals failure. -/
theorem init_mem_struct_no_partial_effects (m : Option memory_access_obj) :
    (init_mem_struct m).obj = m ∧ (init_mem_struct m).ret ≠ 0 := by
  refine ⟨rfl, ?_⟩
  simp [init_mem_struct]

/-- C4: the failure is permanent: every call in any sequence of repeated
calls to the stub open operation, not only the first, returns the same
failure code `-1`; a successful return is never reachable. -/
theorem init_mem_struct_failure_permanent (n : Nat)
    (m : Option memory_access_obj) :
    (stubOpenTrace n m).ret = -1 ∧ (stubOpenTrace n m).ret ≠ 0 := by
  induction n generalizing m with
  | zero => exact ⟨rfl, by simp [stubOpenTrace, init_mem_struct]⟩
  | succ k ih => exact ih (init_mem_struct m).obj

/-- C5: for every handle in the `Closed` or `Unopened` state and all address
and length arguments, `read` fails with `NotOpen`. -/
theorem read_not_open (p : Platform) (h : memory_access_obj)
    (addr len : Nat)
    (hs : h.state = HandleState.Closed ∨ h.state = HandleState.Unopened) :
    readMem p h addr len = Except.error MemErr.NotOpen := by
  unfold readMem
  rcases hs with hs | hs <;> simp [hs]

/-- Witness for C5: reading 4 bytes at address 0 through a closed handle on
the demo platform fails with `NotOpen`. -/
theorem read_not_open_witness :
    readMem demoPlat ⟨HandleState.Closed, none⟩ 0 4 =
      Except.error MemErr.NotOpen :=
  read_not_open demoPlat ⟨HandleState.Closed, none⟩ 0 4 (Or.inl rfl)

/-- C6: `close` is idempotent: for every handle the first call produces no
error, and a second call in succession produces no error and leaves the
handle exactly as the first call left it. -/
theorem close_idempotent (h : memory_access_obj) :
    (closeMem h).2 = none ∧
      closeMem (closeMem h).1 = ((closeMem h).1, none) := by
  unfold closeMem
  cases hs : h.state <;> simp [hs]

/-- C7: on a supported platform, reading through a successfully opened
handle returns exactly `len` bytes when every address of
`[addr, addr + len)` is accessible, fails with `OutOfRange` otherwise, and
`len = 0` returns the empty sequence without error. -/
theorem read_open_contract (p : Platform) (h : memory_access_obj)
    (addr len : Nat) (hp : p.supported = true)
    (hs : h.state = HandleState.Open) :
    (((List.range len).all fun i => p.accessible (addr + i)) = true →
      ∃ bs, readMem p h addr len = Except.ok bs ∧ bs.length = len) ∧
    (((List.range len).all fun i => p.accessible (addr + i)) = false →
      readMem p h addr len = Except.error MemErr.OutOfRange) ∧
    readMem p h addr 0 = Except.ok [] := by
  refine ⟨?_, ?_, ?_⟩
  · intro hall
    refine ⟨(List.range len).map (fun i => p.mem (addr + i)), ?_, ?_⟩
    · simp [readMem, hs, hall]
    · simp
  · intro hall
    simp [readMem, hs, hall]
  · simp [readMem, hs]

/-- Witness for C7: on the demo platform, an open handle reads 4 bytes from
address 0 successfully, reading past the accessible window fails with
`OutOfRange`, and a zero-length read returns the empty sequence. -/
theorem read_open_contract_witness :
    demoPlat.supported = true ∧
      (∃ bs, readMem demoPlat ⟨HandleState.Open, some 0⟩ 0 4 = Except.ok bs ∧
        bs.length = 4) ∧
      readMem demoPlat ⟨HandleState.Open, some 0⟩ 100 4 =
        Except.error MemErr.OutOfRange ∧
      readMem demoPlat ⟨HandleState.Open, some 0⟩ 0 0 = Except.ok [] := by
  have h4 := read_open_contract demoPlat ⟨HandleState.Open, some 0⟩ 0 4
    rfl rfl
  have h100 := read_open_contract demoPlat ⟨HandleState.Open, some 0⟩ 100 4
    rfl rfl
  exact ⟨rfl, h4.1 (by decide), h100.2.1 (by decide), h100.2.2⟩

/-- C8: the handle lifecycle follows `Unopened -> Open -> Closed`: every
state is one of the three; on an `Unopened` handle, `open` moves to `Open`
exactly on success and leaves the handle untouched on failure; a successful
`read` implies the `Open` state; `close` moves `Open` to `Closed`; and
`Closed` is terminal under both `open` and `close`. -/
theorem handle_state_machine (p : Platform) (h : memory_access_obj) :
    (h.state = HandleState.Unopened ∨ h.state = HandleState.Open ∨
      h.state = HandleState.Closed) ∧
    (h.state = HandleState.Unopened → (openMem p h).2 = none →
      (openMem p h).1.state = HandleState.Open) ∧
    (h.state = HandleState.Unopened → (openMem p h).2 ≠ none →
      (openMem p h).1 = h) ∧
    (∀ addr len bs, readMem p h addr len = Except.ok bs →
      h.state = HandleState.Open) ∧
    (h.state = HandleState.Open → (closeMem h).1.state = HandleState.Closed) ∧
    (h.state = HandleState.Closed →
      (openMem p h).1.state = HandleState.Closed ∧
      (closeMem h).1.state = HandleState.Closed) := by
  refine ⟨?_, ?_, ?_, ?_, ?_, ?_⟩
  · cases hs : h.state <;> simp
  · intro hs
    unfold openMem
    cases hsup : p.supported <;> simp [hs]
  · intro hs
    unfold openMem
    cases hsup : p.supported <;> simp [hs]
  · intro addr len bs hr
    by_contra hne
    have : readMem p h addr len = Except.error MemErr.NotOpen := by
      simp [readMem, hne]
    simp [this] at hr
  · intro hs
    simp [closeMem, hs]
  · intro hs
    constructor
    · unfold openMem
      cases hsup : p.supported <;> simp [hs]
    · simp [closeMem, hs]

/-- Witness for C8: on the demo platform, opening an unopened handle
succeeds and yields the `Open` state, and closing that handle yields the
terminal `Closed` state. -/
theorem handle_state_machine_witness :
    (openMem demoPlat ⟨HandleState.Unopened, none⟩).1.state =
        HandleState.Open ∧
      (closeMem ⟨HandleState.Open, some 0⟩).1.state = HandleState.Closed := by
  have hm := handle_state_machine demoPlat ⟨HandleState.Unopened, none⟩
  have hm2 := handle_state_machine demoPlat ⟨HandleState.Open, some 0⟩
  exact ⟨hm.2.1 rfl (by decide), hm2.2.2.2.2.1 rfl⟩

/-- C9: `init_mem_struct` never reads or writes through its object pointer:
every input, the NULL pointer included, is left exactly unchanged, and the
call at NULL completes normally with the usual failure code rather than
faulting. -/
theorem init_mem_struct_frame (m : Option memory_access_obj) :
    (init_mem_struct m).obj = m ∧ (init_mem_struct none).ret = -1 :=
  ⟨rfl, rfl⟩

/-- C10: `init_mem_struct` is deterministic and input-independent: any two
calls return equal results apart from the pass-through object, and the
common return value is the constant `-1`. -/
theorem init_mem_struct_input_independent
    (m₁ m₂ : Option memory_access_obj) :
    (init_mem_struct m₁).ret = (init_mem_struct m₂).ret ∧
      (init_mem_struct m₁).output = (init_mem_struct m₂).output ∧
      (init_mem_struct m₁).ret = -1 :=
  ⟨rfl, rfl, rfl⟩
